import Mathlib

/-!
Shallow embedding of the weather `DataCollectionAgent`
(`src/liz_luggelle_ai_agent_assignment/agent/data_collection_agent.py`; the
copy at `src/agent/data_collection_agent.py` is identical for the modelled
methods except that it never touches the issues log).

Modelling choices:
- Python dict fields that may be absent, present with value `None`, or
  present with a numeric value are an `Entry`; `Entry.get` models
  `rec.get(key)` (returns `none` for both absent and null) and
  `Entry.contained` models Python `key in rec`.
- Machine floats are embedded as exact rationals.
- A raw API payload is abstracted by the outcome of `process_data` field
  extraction: `parsed = none` models a payload missing one of the expected
  keys (the record is dropped and an issue logged); `parsed = some (t, h)`
  gives the temperature and humidity JSON values (`none` = JSON null).
- I/O side effects (file writes in `store_data`, logging, `time.sleep` in
  `respectful_delay`) do not touch the modelled state and are omitted;
  appends to `collection_stats["issues_encountered"]` are modelled by an
  issue counter, since no modelled behaviour reads the issue contents.
-/

set_option autoImplicit false

namespace WeatherAgent

/-- A value slot of a record dict: absent key, key mapped to null, or a
numeric value. -/
inductive Entry where
  | absent
  | null
  | val (x : ℚ)
deriving DecidableEq, Repr

/-- Python `rec.get(key)`: `none` when the key is absent or maps to null. -/
def Entry.get : Entry → Option ℚ
  | .absent => none
  | .null => none
  | .val x => some x

/-- Python `key in rec`: true when the key is in the dict, even if null. -/
def Entry.contained : Entry → Bool
  | .absent => false
  | .null => true
  | .val _ => true

/-- A processed weather record; only the fields the agent logic inspects
(temperature and humidity) are carried. -/
structure WeatherRecord where
  temperature : Entry
  humidity : Entry
deriving DecidableEq, Repr

/-- A raw per-city API payload, abstracted by what `process_data` extracts
from it: `none` when a required key is missing (payload dropped), otherwise
the temperature and humidity values read from the JSON body. -/
structure RawPayload where
  parsed : Option (Option ℚ × Option ℚ)
deriving DecidableEq, Repr

/-- The mutable state of a `DataCollectionAgent`: `data_store` plus the
`collection_stats` dict and the delay multiplier. -/
structure AgentState where
  data_store : List WeatherRecord
  total_requests : ℕ
  successful_requests : ℕ
  failed_requests : ℕ
  data_quality_scores : List ℚ
  issues_encountered : ℕ
  delay_multiplier : ℚ
deriving DecidableEq, Repr

/-- The state set up by `__init__`. -/
def initState : AgentState :=
  { data_store := []
    total_requests := 0
    successful_requests := 0
    failed_requests := 0
    data_quality_scores := []
    issues_encountered := 0
    delay_multiplier := 1 }

/-- Per-city body of the loop in `make_api_request`: a successful request
appends the payload and bumps `successful_requests`; a failed one bumps
`failed_requests` and logs an issue. -/
def request_city (acc : List RawPayload × AgentState) (outcome : Option RawPayload) :
    List RawPayload × AgentState :=
  match outcome with
  | some p =>
      (acc.1 ++ [p],
       { acc.2 with successful_requests := acc.2.successful_requests + 1 })
  | none =>
      (acc.1,
       { acc.2 with
           failed_requests := acc.2.failed_requests + 1
           issues_encountered := acc.2.issues_encountered + 1 })

/-- Model of `make_api_request`: bump `total_requests` once for the whole batch, then
try each configured city in turn; return `none` (Python `None`) when no city
succeeded, else the list of successful payloads. The per-city network
outcome is supplied as `outcomes` (one `Option RawPayload` per configured
city, in city order). -/
def make_api_request (outcomes : List (Option RawPayload)) (s : AgentState) :
    Option (List RawPayload) × AgentState :=
  let s0 := { s with total_requests := s.total_requests + 1 }
  let res := outcomes.foldl request_city ([], s0)
  (if res.1.isEmpty then none else some res.1, res.2)

/-- Field extraction for one payload in `process_data`: a payload missing a
required key raises inside the try block and the record is dropped. -/
def process_record (p : RawPayload) : Option WeatherRecord :=
  match p.parsed with
  | none => none
  | some (t, h) =>
      some { temperature := match t with | none => .null | some x => .val x
             humidity := match h with | none => .null | some x => .val x }

/-- Model of `process_data`: extract a record per payload, dropping malformed ones;
the second component counts the processing errors logged as issues. -/
def process_data (payloads : List RawPayload) : List WeatherRecord × ℕ :=
  (payloads.filterMap process_record,
   (payloads.filter (fun p => p.parsed.isNone)).length)

/-- Model of `validate_data`: false on an empty list, false when any record has a
missing-or-null temperature or humidity, true otherwise. -/
def validate_data (records : List WeatherRecord) : Bool :=
  if records.isEmpty then false
  else records.all fun rec =>
    !(rec.temperature.get.isNone || rec.humidity.get.isNone)

/-- Model of `store_data`: extend the in-memory store (the file snapshot write is a
side effect outside the modelled state). -/
def store_data (records : List WeatherRecord) (s : AgentState) : AgentState :=
  { s with data_store := s.data_store ++ records }

/-- Model of `assess_data_quality`: returns 0 on an empty store without recording a
score; otherwise computes the placeholder blend and appends it to
`data_quality_scores`. Returns the score together with the updated state. -/
def assess_data_quality (s : AgentState) : ℚ × AgentState :=
  if s.data_store.isEmpty then (0, s)
  else
    let completeness : ℚ :=
      if s.data_store.all (fun rec => rec.temperature.contained) then 1 else 0.5
    let consistency : ℚ := 1
    let accuracy : ℚ := 1
    let timeliness : ℚ := 1
    let score := (completeness + consistency + accuracy + timeliness) / 4
    (score, { s with data_quality_scores := s.data_quality_scores ++ [score] })

/-- Model of `get_success_rate`: 1.0 when no request was made yet, else the ratio of
successful to total requests. -/
def get_success_rate (s : AgentState) : ℚ :=
  if s.total_requests = 0 then 1
  else (s.successful_requests : ℚ) / (s.total_requests : ℚ)

/-- Model of `adjust_strategy`: double the delay multiplier (and log an issue) when
the success rate is below 0.5; multiply it by 0.8 when above 0.9; otherwise
leave the state unchanged. -/
def adjust_strategy (s : AgentState) : AgentState :=
  let success_rate := get_success_rate s
  if success_rate < 0.5 then
    { s with
        delay_multiplier := s.delay_multiplier * 2
        issues_encountered := s.issues_encountered + 1 }
  else if success_rate > 0.9 then
    { s with delay_multiplier := s.delay_multiplier * 0.8 }
  else s

/-- Model of `collection_complete`: stop once `total_requests` reaches the configured
`max_requests`. -/
def collection_complete (max_requests : ℕ) (s : AgentState) : Bool :=
  max_requests ≤ s.total_requests

/-- Model of `detect_anomalies`: the stored records whose temperature is present and
strictly outside [-40, 50]. -/
def detect_anomalies (store : List WeatherRecord) : List WeatherRecord :=
  store.filter fun rec =>
    match rec.temperature.get with
    | none => false
    | some t => decide (t < -40) || decide (t > 50)

/-- The tail of a `collect_data` loop iteration (`if data: ...`): when the
batch returned payloads, process them, record any processing issues, and
store the processed records when they validate. -/
def handle_batch (data : Option (List RawPayload)) (s : AgentState) : AgentState :=
  match data with
  | none => s
  | some payloads =>
      let pr := process_data payloads
      let s3 := { s with issues_encountered := s.issues_encountered + pr.2 }
      if validate_data pr.1 then store_data pr.1 s3 else s3

/-- One iteration of the `collect_data` while loop: assess quality, adjust
strategy when the success rate is below 0.8, make the batch request, then
process / validate / store when the batch returned data. The per-city
outcomes for this iteration are supplied as `outcomes`. -/
def loop_iter (outcomes : List (Option RawPayload)) (s : AgentState) : AgentState :=
  let s1 := (assess_data_quality s).2
  let s2 := if get_success_rate s1 < 0.8 then adjust_strategy s1 else s1
  let req := make_api_request outcomes s2
  handle_batch req.1 req.2

/-- The body of the `collect_data` while loop, driven by a structural fuel
argument. Because every iteration increments `total_requests` by exactly one
(theorem `loop_iter_total` below), running with fuel
`max_requests - total_requests` is exactly the Python while loop; theorems
`collect_data_stop` and `collect_data_go` below establish the
unfolding equations of the while loop. `oracle i` supplies the per-city outcomes of
iteration `i`. -/
def collect_data_fuel (oracle : ℕ → List (Option RawPayload)) (max_requests : ℕ) :
    ℕ → ℕ → AgentState → AgentState
  | 0, _, s => s
  | fuel + 1, i, s =>
      if collection_complete max_requests s then s
      else collect_data_fuel oracle max_requests fuel (i + 1) (loop_iter (oracle i) s)

/-- Model of `collect_data`: the main while loop. On completion the agent generates
its reports, which read but do not modify the modelled state, so the final
state is returned. -/
def collect_data (oracle : ℕ → List (Option RawPayload)) (max_requests : ℕ)
    (i : ℕ) (s : AgentState) : AgentState :=
  collect_data_fuel oracle max_requests (max_requests - s.total_requests) i s

/-- The states reachable from the fresh agent by running loop
iterations, with `c` configured cities and an arbitrary pattern of per-city
successes and failures. -/
inductive Reachable (c : ℕ) : AgentState → Prop where
  | init : Reachable c initState
  | step (outcomes : List (Option RawPayload)) (s : AgentState) :
      outcomes.length = c → Reachable c s → Reachable c (loop_iter outcomes s)

/-- A raw payload that parses to temperature 20 and humidity 60. -/
def okPayload : RawPayload := ⟨some (some 20, some 60)⟩

/-- A fetch stub for which the single configured city always succeeds with
temperature 20 and humidity 60. -/
def oracleOK : ℕ → List (Option RawPayload) := fun _ => [some okPayload]

/-- A fetch stub for which the single configured city always fails. -/
def oracleFail : ℕ → List (Option RawPayload) := fun _ => [none]

/-- A state with 7 successes out of 10 requests (success rate 0.7). -/
def midRateState : AgentState :=
  { data_store := []
    total_requests := 10
    successful_requests := 7
    failed_requests := 3
    data_quality_scores := []
    issues_encountered := 0
    delay_multiplier := 1 }

/-- A state with 0 successes out of 1 request (success rate 0). -/
def lowRateState : AgentState :=
  { data_store := []
    total_requests := 1
    successful_requests := 0
    failed_requests := 1
    data_quality_scores := []
    issues_encountered := 0
    delay_multiplier := 1 }

/-- A state with 19 successes out of 20 requests (success rate 0.95). -/
def highRateState : AgentState :=
  { data_store := []
    total_requests := 20
    successful_requests := 19
    failed_requests := 1
    data_quality_scores := []
    issues_encountered := 0
    delay_multiplier := 1 }

/-- A state whose store holds one complete record. -/
def storedState : AgentState :=
  { data_store := [⟨Entry.val 20, Entry.val 60⟩]
    total_requests := 1
    successful_requests := 1
    failed_requests := 0
    data_quality_scores := []
    issues_encountered := 0
    delay_multiplier := 1 }

/-- Full characterization of the per-city fold in `make_api_request`: the
payload list collects the successes in order, and the counters advance by
the number of successes and failures among the outcomes. -/
theorem foldl_request_city (outcomes : List (Option RawPayload))
    (l : List RawPayload) (s : AgentState) :
    outcomes.foldl request_city (l, s) =
      (l ++ outcomes.filterMap id,
       { s with
           successful_requests :=
             s.successful_requests + (outcomes.filter (fun o => o.isSome)).length
           failed_requests :=
             s.failed_requests + (outcomes.filter (fun o => o.isNone)).length
           issues_encountered :=
             s.issues_encountered + (outcomes.filter (fun o => o.isNone)).length }) := by
  induction outcomes generalizing l s with
  | nil => simp
  | cons o t ih =>
    cases o with
    | some p =>
      simp only [List.foldl_cons, request_city, List.filterMap_cons, List.filter_cons,
        Option.isSome_some, Option.isNone_some, ih]
      simp +arith [List.append_assoc]
    | none =>
      simp only [List.foldl_cons, request_city, List.filterMap_cons, List.filter_cons,
        Option.isSome_none, Option.isNone_none, ih]
      simp +arith

/-- The state after `make_api_request`, in closed form. -/
theorem make_api_request_state (outcomes : List (Option RawPayload)) (s : AgentState) :
    (make_api_request outcomes s).2 =
      { s with
          total_requests := s.total_requests + 1
          successful_requests :=
            s.successful_requests + (outcomes.filter (fun o => o.isSome)).length
          failed_requests :=
            s.failed_requests + (outcomes.filter (fun o => o.isNone)).length
          issues_encountered :=
            s.issues_encountered + (outcomes.filter (fun o => o.isNone)).length } := by
  simp [make_api_request, foldl_request_city]

/-- Lemma: `assess_data_quality` only ever touches `data_quality_scores`. -/
theorem assess_data_quality_state (s : AgentState) :
    (assess_data_quality s).2 =
      { s with
          data_quality_scores :=
            s.data_quality_scores ++
              if s.data_store.isEmpty then [] else [(assess_data_quality s).1] } := by
  simp only [assess_data_quality]
  split
  · simp
  · simp

/-- Lemma: `adjust_strategy` only ever touches the delay multiplier and the issue
log, and the multiplier update is decided by the success rate. -/
theorem adjust_strategy_state (s : AgentState) :
    adjust_strategy s =
      if get_success_rate s < 0.5 then
        { s with
            delay_multiplier := s.delay_multiplier * 2
            issues_encountered := s.issues_encountered + 1 }
      else if get_success_rate s > 0.9 then
        { s with delay_multiplier := s.delay_multiplier * 0.8 }
      else s := by
  simp only [adjust_strategy]

/-- Lemma: `handle_batch` never touches the counters, the quality-score list or the
delay multiplier. -/
theorem handle_batch_fields (data : Option (List RawPayload)) (s : AgentState) :
    (handle_batch data s).total_requests = s.total_requests ∧
      (handle_batch data s).successful_requests = s.successful_requests ∧
      (handle_batch data s).failed_requests = s.failed_requests ∧
      (handle_batch data s).data_quality_scores = s.data_quality_scores ∧
      (handle_batch data s).delay_multiplier = s.delay_multiplier := by
  cases data with
  | none => simp [handle_batch]
  | some payloads =>
    simp only [handle_batch]
    split <;> simp [store_data]

/-- The counter fields of the state after one loop iteration: one more batch
request, and one success/failure increment per configured city. -/
theorem loop_iter_counters (outcomes : List (Option RawPayload)) (s : AgentState) :
    (loop_iter outcomes s).total_requests = s.total_requests + 1 ∧
      (loop_iter outcomes s).successful_requests =
        s.successful_requests + (outcomes.filter (fun o => o.isSome)).length ∧
      (loop_iter outcomes s).failed_requests =
        s.failed_requests + (outcomes.filter (fun o => o.isNone)).length := by
  simp only [loop_iter]
  set s1 := (assess_data_quality s).2 with hs1
  have h1 : s1.total_requests = s.total_requests ∧
      s1.successful_requests = s.successful_requests ∧
      s1.failed_requests = s.failed_requests := by
    rw [hs1, assess_data_quality_state]
    exact ⟨rfl, rfl, rfl⟩
  set s2 := (if get_success_rate s1 < 0.8 then adjust_strategy s1 else s1) with hs2
  have h2 : s2.total_requests = s1.total_requests ∧
      s2.successful_requests = s1.successful_requests ∧
      s2.failed_requests = s1.failed_requests := by
    rw [hs2]
    split
    · rw [adjust_strategy_state]
      split
      · exact ⟨rfl, rfl, rfl⟩
      · split <;> exact ⟨rfl, rfl, rfl⟩
    · exact ⟨rfl, rfl, rfl⟩
  have h3 := handle_batch_fields (make_api_request outcomes s2).1 (make_api_request outcomes s2).2
  rw [h3.1, h3.2.1, h3.2.2.1, make_api_request_state]
  refine ⟨?_, ?_, ?_⟩ <;> simp <;> omega

/-- Each loop iteration makes exactly one batch request. -/
theorem loop_iter_total (outcomes : List (Option RawPayload)) (s : AgentState) :
    (loop_iter outcomes s).total_requests = s.total_requests + 1 :=
  (loop_iter_counters outcomes s).1

/-- The success rate only depends on the request counters, which
`assess_data_quality` never touches. -/
theorem get_success_rate_assess (s : AgentState) :
    get_success_rate (assess_data_quality s).2 = get_success_rate s := by
  rw [assess_data_quality_state]
  rfl

/-- The quality-score list survives the strategy-adjustment stage. -/
theorem adjust_strategy_scores (s : AgentState) :
    (adjust_strategy s).data_quality_scores = s.data_quality_scores := by
  rw [adjust_strategy_state]
  split
  · rfl
  · split <;> rfl

/-- Evolution of the delay multiplier over one loop iteration: it is doubled
when the success rate entering the iteration is below 0.5, and is unchanged
otherwise; in particular the speed-up branch of `adjust_strategy` never
fires inside the loop. -/
theorem loop_iter_mult (outcomes : List (Option RawPayload)) (s : AgentState) :
    (loop_iter outcomes s).delay_multiplier =
      if get_success_rate s < 0.5 then s.delay_multiplier * 2
      else s.delay_multiplier := by
  simp only [loop_iter]
  set s1 := (assess_data_quality s).2 with hs1
  have hr1 : get_success_rate s1 = get_success_rate s := by
    rw [hs1, get_success_rate_assess]
  have hm1 : s1.delay_multiplier = s.delay_multiplier := by
    rw [hs1, assess_data_quality_state]
  set s2 := (if get_success_rate s1 < 0.8 then adjust_strategy s1 else s1) with hs2
  have hm2 : s2.delay_multiplier =
      if get_success_rate s < 0.5 then s.delay_multiplier * 2
      else s.delay_multiplier := by
    rw [hs2, hr1]
    by_cases h08 : get_success_rate s < 0.8
    · rw [if_pos h08, adjust_strategy_state, hr1]
      by_cases h05 : get_success_rate s < 0.5
      · rw [if_pos h05, if_pos h05]
        simp [hm1]
      · have h09 : ¬ get_success_rate s > 0.9 := by
          have : (0.8 : ℚ) ≤ 0.9 := by norm_num
          push_neg at h08 ⊢
          linarith
        rw [if_neg h05, if_neg h09, if_neg h05]
        exact hm1
    · have h05 : ¬ get_success_rate s < 0.5 := by
        have : (0.5 : ℚ) ≤ 0.8 := by norm_num
        push_neg at h08 ⊢
        linarith
      rw [if_neg h08, if_neg h05]
      exact hm1
  rw [(handle_batch_fields _ _).2.2.2.2, make_api_request_state]
  simpa using hm2

/-- Growth of the quality-score list over one loop iteration: one score is
appended exactly when the data store was non-empty at the top of the
iteration. -/
theorem loop_iter_scores_len (outcomes : List (Option RawPayload)) (s : AgentState) :
    (loop_iter outcomes s).data_quality_scores.length =
      s.data_quality_scores.length + (if s.data_store.isEmpty then 0 else 1) := by
  simp only [loop_iter]
  set s1 := (assess_data_quality s).2 with hs1
  have hsc1 : s1.data_quality_scores.length =
      s.data_quality_scores.length + (if s.data_store.isEmpty then 0 else 1) := by
    rw [hs1, assess_data_quality_state]
    by_cases he : s.data_store.isEmpty <;> simp [he]
  set s2 := (if get_success_rate s1 < 0.8 then adjust_strategy s1 else s1) with hs2
  have hsc2 : s2.data_quality_scores = s1.data_quality_scores := by
    rw [hs2]
    split
    · exact adjust_strategy_scores s1
    · rfl
  rw [(handle_batch_fields _ _).2.2.2.1, make_api_request_state]
  simpa [hsc2] using hsc1

/-- Among a list of per-city outcomes, the successes and the failures
together count every city exactly once. -/
theorem length_filter_outcomes {α : Type} (l : List (Option α)) :
    (l.filter (fun o => o.isSome)).length + (l.filter (fun o => o.isNone)).length
      = l.length := by
  induction l with
  | nil => rfl
  | cons o t ih => cases o <;> simp [List.filter_cons] <;> omega

/-- Iterating the loop body never lowers a non-negative delay multiplier. -/
theorem loop_iter_mult_mono (outcomes : List (Option RawPayload)) (s : AgentState)
    (h0 : 0 ≤ s.delay_multiplier) :
    s.delay_multiplier ≤ (loop_iter outcomes s).delay_multiplier := by
  rw [loop_iter_mult]
  split
  · linarith
  · exact le_refl _

/-- The fueled loop never lowers a non-negative delay multiplier. -/
theorem collect_data_fuel_mult_mono (oracle : ℕ → List (Option RawPayload))
    (max_requests : ℕ) :
    ∀ (fuel i : ℕ) (s : AgentState), 0 ≤ s.delay_multiplier →
      s.delay_multiplier ≤
        (collect_data_fuel oracle max_requests fuel i s).delay_multiplier := by
  intro fuel
  induction fuel with
  | zero =>
    intro i s h0
    exact le_refl _
  | succ n ih =>
    intro i s h0
    simp only [collect_data_fuel]
    split
    · exact le_refl _
    · have hmono := loop_iter_mult_mono (oracle i) s h0
      exact le_trans hmono (ih (i + 1) _ (le_trans h0 hmono))

/-- Running any sequence of loop iterations never lowers a non-negative
delay multiplier. -/
theorem foldl_loop_iter_mult_mono :
    ∀ (os : List (List (Option RawPayload))) (s : AgentState),
      0 ≤ s.delay_multiplier →
        s.delay_multiplier ≤
          (os.foldl (fun st o => loop_iter o st) s).delay_multiplier := by
  intro os
  induction os with
  | nil =>
    intro s h0
    exact le_refl _
  | cons o t ih =>
    intro s h0
    have hmono := loop_iter_mult_mono o s h0
    exact le_trans hmono (ih _ (le_trans h0 hmono))

/-- First unfolding equation of the while loop: when the request budget is
already exhausted the loop body never runs. -/
theorem collect_data_stop {oracle : ℕ → List (Option RawPayload)}
    {max_requests i : ℕ} {s : AgentState}
    (h : collection_complete max_requests s = true) :
    collect_data oracle max_requests i s = s := by
  have hle : max_requests ≤ s.total_requests := by
    simpa [collection_complete] using h
  unfold collect_data
  rw [Nat.sub_eq_zero_of_le hle]
  rfl

/-- Second unfolding equation of the while loop: when the budget is not yet
exhausted, one iteration runs and the loop continues. -/
theorem collect_data_go {oracle : ℕ → List (Option RawPayload)}
    {max_requests i : ℕ} {s : AgentState}
    (h : collection_complete max_requests s = false) :
    collect_data oracle max_requests i s =
      collect_data oracle max_requests (i + 1) (loop_iter (oracle i) s) := by
  have hlt : s.total_requests < max_requests := by
    simpa [collection_complete] using h
  unfold collect_data
  have hfuel : max_requests - s.total_requests =
      (max_requests - (loop_iter (oracle i) s).total_requests) + 1 := by
    rw [loop_iter_total]
    omega
  rw [hfuel]
  simp only [collect_data_fuel, h]
  rfl

/-- Claim C3: every single invocation of `make_api_request` (one batch)
increments `total_requests` by exactly 1 regardless of how many cities are
configured, while `successful_requests` plus `failed_requests` together
increase by exactly the number of configured cities, each city contributing
exactly one increment, to the success counter or to the failure counter. -/
theorem C3_batch_counters (outcomes : List (Option RawPayload)) (s : AgentState) :
    (make_api_request outcomes s).2.total_requests = s.total_requests + 1 ∧
      (make_api_request outcomes s).2.successful_requests =
        s.successful_requests + (outcomes.filter (fun o => o.isSome)).length ∧
      (make_api_request outcomes s).2.failed_requests =
        s.failed_requests + (outcomes.filter (fun o => o.isNone)).length ∧
      (make_api_request outcomes s).2.successful_requests +
          (make_api_request outcomes s).2.failed_requests =
        s.successful_requests + s.failed_requests + outcomes.length := by
  rw [make_api_request_state]
  refine ⟨rfl, rfl, rfl, ?_⟩
  have h := length_filter_outcomes outcomes
  simp only []
  omega

/-- Claim C5 counterexample: at success rate 0 (strictly below 0.5) the
slow-down branch of `adjust_strategy` doubles the delay multiplier but also
appends an issue record to the stats, so state other than the multiplier is
changed by the adjustment. -/
theorem C5_cex :
    get_success_rate lowRateState < 0.5 ∧
      (adjust_strategy lowRateState).delay_multiplier =
        lowRateState.delay_multiplier * 2 ∧
      (adjust_strategy lowRateState).issues_encountered ≠
        lowRateState.issues_encountered := by
  refine ⟨by norm_num [get_success_rate, lowRateState], ?_, ?_⟩ <;>
    norm_num [adjust_strategy, get_success_rate, lowRateState]

/-- Claim C5 (amended): `adjust_strategy` multiplies the delay multiplier by
2 and appends one issue record when the success rate is strictly below 0.5,
multiplies the multiplier by 0.8 when the success rate is strictly above
0.9, and leaves the whole state unchanged for success rates in [0.5, 0.9];
no floor or ceiling clamp is applied, and apart from the issue record in
the slow-down branch no other state is changed. -/
theorem C5_adjust_strategy (s : AgentState) :
    (get_success_rate s < 0.5 →
      adjust_strategy s =
        { s with
            delay_multiplier := s.delay_multiplier * 2
            issues_encountered := s.issues_encountered + 1 }) ∧
      (get_success_rate s > 0.9 →
        adjust_strategy s = { s with delay_multiplier := s.delay_multiplier * 0.8 }) ∧
      (0.5 ≤ get_success_rate s → get_success_rate s ≤ 0.9 →
        adjust_strategy s = s) := by
  refine ⟨?_, ?_, ?_⟩
  · intro h
    rw [adjust_strategy_state, if_pos h]
  · intro h
    rw [adjust_strategy_state, if_neg (by linarith), if_pos h]
  · intro h1 h2
    rw [adjust_strategy_state, if_neg (by linarith), if_neg (by linarith)]

/-- Witness for C5 at success rates 0, 0.95 and 0.7. -/
theorem C5_witness :
    adjust_strategy lowRateState =
        { lowRateState with
            delay_multiplier := lowRateState.delay_multiplier * 2
            issues_encountered := lowRateState.issues_encountered + 1 } ∧
      adjust_strategy highRateState =
        { highRateState with
            delay_multiplier := highRateState.delay_multiplier * 0.8 } ∧
      adjust_strategy midRateState = midRateState :=
  ⟨(C5_adjust_strategy lowRateState).1
      (by norm_num [get_success_rate, lowRateState]),
   (C5_adjust_strategy highRateState).2.1
      (by norm_num [get_success_rate, highRateState]),
   (C5_adjust_strategy midRateState).2.2
      (by norm_num [get_success_rate, midRateState])
      (by norm_num [get_success_rate, midRateState])⟩

/-- Claim C6: `assess_data_quality` returns 0 when the data store is empty;
when the store is non-empty it returns (completeness + 1 + 1 + 1) / 4 where
completeness is 1 if every stored record has a temperature field and 0.5
otherwise; in particular it returns exactly 1 when every stored record has a
temperature field; and its return value always lies in [0, 1]. -/
theorem C6_assess_quality (s : AgentState) :
    (s.data_store = [] → (assess_data_quality s).1 = 0) ∧
      (s.data_store ≠ [] →
        (assess_data_quality s).1 =
          ((if s.data_store.all (fun rec => rec.temperature.contained) then 1 else 0.5)
            + 1 + 1 + 1) / 4) ∧
      (s.data_store ≠ [] →
        (∀ rec ∈ s.data_store, rec.temperature.contained = true) →
        (assess_data_quality s).1 = 1) ∧
      0 ≤ (assess_data_quality s).1 ∧ (assess_data_quality s).1 ≤ 1 := by
  have hsplit : ∀ h : s.data_store.isEmpty = false,
      (assess_data_quality s).1 =
        ((if s.data_store.all (fun rec => rec.temperature.contained) then 1 else 0.5)
          + 1 + 1 + 1) / 4 := by
    intro h
    simp [assess_data_quality, h]
  refine ⟨?_, ?_, ?_, ?_⟩
  · intro h
    simp [assess_data_quality, h]
  · intro h
    exact hsplit (by simpa [List.isEmpty_iff] using h)
  · intro h hall
    rw [hsplit (by simpa [List.isEmpty_iff] using h),
      if_pos (by simpa [List.all_eq_true] using hall)]
    norm_num
  · by_cases he : s.data_store.isEmpty
    · simp [assess_data_quality, he]
    · rw [hsplit (by simpa using he)]
      split <;> norm_num

/-- Witness for C6 on the empty store and on a store whose single record has
a temperature field. -/
theorem C6_witness :
    (assess_data_quality initState).1 = 0 ∧
      (assess_data_quality storedState).1 =
        ((if storedState.data_store.all (fun rec => rec.temperature.contained)
            then 1 else 0.5) + 1 + 1 + 1) / 4 ∧
      (assess_data_quality storedState).1 = 1 :=
  ⟨(C6_assess_quality initState).1 rfl,
   (C6_assess_quality storedState).2.1 (by simp [storedState]),
   (C6_assess_quality storedState).2.2.1 (by simp [storedState])
      (by intro rec hr; simp_all [storedState, Entry.contained])⟩

/-- Claim C7: `validate_data` returns false for the empty record sequence;
it returns false whenever any record has an absent-or-null temperature or
humidity; and it returns true for every non-empty sequence in which each
record has both temperature and humidity present and non-null. -/
theorem C7_validate (recs : List WeatherRecord) :
    validate_data [] = false ∧
      (∀ r ∈ recs, (r.temperature.get = none ∨ r.humidity.get = none) →
        validate_data recs = false) ∧
      (recs ≠ [] →
        (∀ r ∈ recs, r.temperature.get ≠ none ∧ r.humidity.get ≠ none) →
        validate_data recs = true) ∧
      validate_data [⟨Entry.null, Entry.val 50⟩] = false ∧
      validate_data [⟨Entry.val 10, Entry.val 50⟩] = true := by
  refine ⟨rfl, ?_, ?_, rfl, rfl⟩
  · intro r hr hmiss
    have hne : recs.isEmpty = false := by
      rcases recs with - | ⟨a, t⟩
      · cases hr
      · rfl
    simp only [validate_data, hne, Bool.false_eq_true, if_false]
    simp only [List.all_eq_false]
    refine ⟨r, hr, ?_⟩
    rcases hmiss with h | h <;> simp [h]
  · intro hne hall
    have hne' : recs.isEmpty = false := by simpa [List.isEmpty_iff] using hne
    simp only [validate_data, hne', Bool.false_eq_true, if_false]
    simp only [List.all_eq_true]
    intro r hr
    obtain ⟨h1, h2⟩ := hall r hr
    simp [Option.isNone_iff_eq_none, Option.isSome_iff_ne_none, h1, h2]

/-- Witness for C7 on the two concrete one-record batches of the claim. -/
theorem C7_witness :
    validate_data [⟨Entry.null, Entry.val 50⟩] = false ∧
      validate_data [⟨Entry.val 10, Entry.val 50⟩] = true :=
  ⟨(C7_validate [⟨Entry.null, Entry.val 50⟩]).2.1 ⟨Entry.null, Entry.val 50⟩
      (by simp) (Or.inl rfl),
   (C7_validate [⟨Entry.val 10, Entry.val 50⟩]).2.2.1 (by simp)
      (by intro r hr; simp_all [Entry.get])⟩

/-- Claim C8: `get_success_rate` returns exactly 1 when `total_requests` is
0, and returns `successful_requests / total_requests` for every state with
`total_requests > 0`; the zero-total branch never divides. -/
theorem C8_success_rate (s : AgentState) :
    (s.total_requests = 0 → get_success_rate s = 1) ∧
      (0 < s.total_requests →
        get_success_rate s =
          (s.successful_requests : ℚ) / (s.total_requests : ℚ)) := by
  constructor
  · intro h
    simp [get_success_rate, h]
  · intro h
    rw [get_success_rate, if_neg (by omega)]

/-- Witness for C8 on the initial state and a state with 7 of 10 successes. -/
theorem C8_witness :
    get_success_rate initState = 1 ∧
      get_success_rate midRateState =
        (midRateState.successful_requests : ℚ) / (midRateState.total_requests : ℚ) :=
  ⟨(C8_success_rate initState).1 rfl,
   (C8_success_rate midRateState).2 (by norm_num [midRateState])⟩

/-- Claim C9: a stored record whose temperature is present is in the anomaly
list exactly when that temperature is strictly outside [-40, 50]; a record
without a temperature is never anomalous; and on a sample store the record
at 55 °C is the only anomaly among temperatures 55, 49.9, -40 and 50. -/
theorem C9_detect_anomalies (store : List WeatherRecord) (r : WeatherRecord) (t : ℚ) :
    (r.temperature.get = some t →
      (r ∈ detect_anomalies store ↔ r ∈ store ∧ (t < -40 ∨ t > 50))) ∧
      (r.temperature.get = none → r ∉ detect_anomalies store) ∧
      detect_anomalies
          [⟨Entry.val 55, Entry.val 60⟩, ⟨Entry.val 49.9, Entry.val 60⟩,
            ⟨Entry.val (-40), Entry.val 60⟩, ⟨Entry.val 50, Entry.val 60⟩] =
        [⟨Entry.val 55, Entry.val 60⟩] := by
  refine ⟨?_, ?_, ?_⟩
  · intro ht
    simp [detect_anomalies, List.mem_filter, ht]
  · intro ht
    simp [detect_anomalies, List.mem_filter, ht]
  · norm_num [detect_anomalies, Entry.get, List.filter]

/-- Witness for C9: the 55 °C record is reported anomalous on a singleton
store. -/
theorem C9_witness :
    (⟨Entry.val 55, Entry.val 60⟩ : WeatherRecord) ∈
      detect_anomalies [⟨Entry.val 55, Entry.val 60⟩] :=
  ((C9_detect_anomalies [⟨Entry.val 55, Entry.val 60⟩]
      ⟨Entry.val 55, Entry.val 60⟩ 55).1 rfl).mpr
    ⟨by simp, Or.inr (by norm_num)⟩

/-- Claim C1: with `max_requests = 3`, a single city, and a fetch that
always succeeds yielding temperature 20 and humidity 60, `collect_data`
terminates and afterwards `total_requests = 3`, `successful_requests = 3`,
the data store contains exactly 3 records, and `get_success_rate` returns
exactly 1. -/
theorem C1_end_to_end :
    (collect_data oracleOK 3 0 initState).total_requests = 3 ∧
      (collect_data oracleOK 3 0 initState).successful_requests = 3 ∧
      (collect_data oracleOK 3 0 initState).data_store.length = 3 ∧
      get_success_rate (collect_data oracleOK 3 0 initState) = 1 := by
  have e1 : loop_iter (oracleOK 0) initState =
      { data_store := [⟨Entry.val 20, Entry.val 60⟩]
        total_requests := 1
        successful_requests := 1
        failed_requests := 0
        data_quality_scores := []
        issues_encountered := 0
        delay_multiplier := 1 } := by
    norm_num [loop_iter, handle_batch, assess_data_quality, adjust_strategy,
      make_api_request, request_city, process_data, process_record, validate_data,
      store_data, get_success_rate, Entry.get, Entry.contained, initState,
      okPayload, oracleOK]
    try simp [process_record, Entry.get]
  have e2 : loop_iter (oracleOK 1)
      { data_store := [⟨Entry.val 20, Entry.val 60⟩]
        total_requests := 1
        successful_requests := 1
        failed_requests := 0
        data_quality_scores := []
        issues_encountered := 0
        delay_multiplier := 1 } =
      { data_store := [⟨Entry.val 20, Entry.val 60⟩, ⟨Entry.val 20, Entry.val 60⟩]
        total_requests := 2
        successful_requests := 2
        failed_requests := 0
        data_quality_scores := [1]
        issues_encountered := 0
        delay_multiplier := 1 } := by
    norm_num [loop_iter, handle_batch, assess_data_quality, adjust_strategy,
      make_api_request, request_city, process_data, process_record, validate_data,
      store_data, get_success_rate, Entry.get, Entry.contained, okPayload, oracleOK]
    try simp [process_record, Entry.get]
  have e3 : loop_iter (oracleOK 2)
      { data_store := [⟨Entry.val 20, Entry.val 60⟩, ⟨Entry.val 20, Entry.val 60⟩]
        total_requests := 2
        successful_requests := 2
        failed_requests := 0
        data_quality_scores := [1]
        issues_encountered := 0
        delay_multiplier := 1 } =
      { data_store := [⟨Entry.val 20, Entry.val 60⟩, ⟨Entry.val 20, Entry.val 60⟩,
          ⟨Entry.val 20, Entry.val 60⟩]
        total_requests := 3
        successful_requests := 3
        failed_requests := 0
        data_quality_scores := [1, 1]
        issues_encountered := 0
        delay_multiplier := 1 } := by
    norm_num [loop_iter, handle_batch, assess_data_quality, adjust_strategy,
      make_api_request, request_city, process_data, process_record, validate_data,
      store_data, get_success_rate, Entry.get, Entry.contained, okPayload, oracleOK]
    try simp [process_record, Entry.get]
  have hrun : collect_data oracleOK 3 0 initState =
      { data_store := [⟨Entry.val 20, Entry.val 60⟩, ⟨Entry.val 20, Entry.val 60⟩,
          ⟨Entry.val 20, Entry.val 60⟩]
        total_requests := 3
        successful_requests := 3
        failed_requests := 0
        data_quality_scores := [1, 1]
        issues_encountered := 0
        delay_multiplier := 1 } := by
    rw [collect_data_go (by simp [collection_complete, initState]), e1,
      collect_data_go (by simp [collection_complete]), e2,
      collect_data_go (by simp [collection_complete]), e3,
      collect_data_stop (by simp [collection_complete])]
  rw [hrun]
  refine ⟨rfl, rfl, rfl, ?_⟩
  norm_num [get_success_rate]

/-- Claim C2 counterexample: with two configured cities, the state reached
by one loop iteration in which both cities succeed has
successful + failed = 2 but total_requests = 1, violating the claimed
inequality successful + failed ≤ total. -/
theorem C2_cex :
    Reachable 2 (loop_iter [some okPayload, some okPayload] initState) ∧
      ¬ ((loop_iter [some okPayload, some okPayload] initState).successful_requests +
            (loop_iter [some okPayload, some okPayload] initState).failed_requests ≤
          (loop_iter [some okPayload, some okPayload] initState).total_requests) := by
  refine ⟨Reachable.step _ _ rfl Reachable.init, ?_⟩
  obtain ⟨h1, h2, h3⟩ := loop_iter_counters [some okPayload, some okPayload] initState
  rw [h1, h2, h3]
  simp [initState]

/-- Claim C2 (amended): in every state reachable from the initial state by
loop iterations with `c` configured cities and any pattern of per-city
successes and failures, the counters (which are naturals, hence
non-negative) satisfy successful + failed = total × c; in particular the
originally claimed successful + failed ≤ total holds whenever at most one
city is configured. -/
theorem C2_counter_invariant (c : ℕ) (s : AgentState) (h : Reachable c s) :
    s.successful_requests + s.failed_requests = s.total_requests * c ∧
      (c ≤ 1 → s.successful_requests + s.failed_requests ≤ s.total_requests) := by
  have key : s.successful_requests + s.failed_requests = s.total_requests * c := by
    induction h with
    | init => simp [initState]
    | step outcomes s' hlen hr ih =>
      obtain ⟨h1, h2, h3⟩ := loop_iter_counters outcomes s'
      have hf := length_filter_outcomes outcomes
      rw [hlen] at hf
      calc (loop_iter outcomes s').successful_requests +
            (loop_iter outcomes s').failed_requests
          = (s'.successful_requests + s'.failed_requests) +
              ((outcomes.filter (fun o => o.isSome)).length +
                (outcomes.filter (fun o => o.isNone)).length) := by
            rw [h2, h3]; omega
        _ = s'.total_requests * c + c := by rw [ih, hf]
        _ = (s'.total_requests + 1) * c := by ring
        _ = (loop_iter outcomes s').total_requests * c := by rw [h1]
  refine ⟨key, fun hc => ?_⟩
  rw [key]
  calc s.total_requests * c ≤ s.total_requests * 1 := Nat.mul_le_mul_left _ hc
    _ = s.total_requests := Nat.mul_one _

/-- Witness for C2 at the initial state with one configured city. -/
theorem C2_witness :
    initState.successful_requests + initState.failed_requests =
        initState.total_requests * 1 ∧
      initState.successful_requests + initState.failed_requests ≤
        initState.total_requests :=
  ⟨(C2_counter_invariant 1 initState Reachable.init).1,
   (C2_counter_invariant 1 initState Reachable.init).2 (le_refl 1)⟩

/-- Claim C4 counterexample: with `max_requests = 1` and a single always
failing city, the loop completes exactly one iteration
(`total_requests = 1`) yet `data_quality_scores` stays empty, because
`assess_data_quality` returns early without appending when the store is
empty. -/
theorem C4_cex :
    (collect_data oracleFail 1 0 initState).total_requests = 1 ∧
      (collect_data oracleFail 1 0 initState).data_quality_scores.length = 0 := by
  have e : loop_iter (oracleFail 0) initState =
      { data_store := []
        total_requests := 1
        successful_requests := 0
        failed_requests := 1
        data_quality_scores := []
        issues_encountered := 1
        delay_multiplier := 1 } := by
    norm_num [loop_iter, handle_batch, assess_data_quality, adjust_strategy,
      make_api_request, request_city, process_data, process_record, validate_data,
      store_data, get_success_rate, Entry.get, Entry.contained, initState,
      oracleFail]
    try simp [process_record, Entry.get]
  rw [collect_data_go (by simp [collection_complete, initState]), e,
    collect_data_stop (by simp [collection_complete])]
  exact ⟨rfl, rfl⟩

/-- Claim C4 (amended): a completed iteration of the collection loop appends
exactly one quality score when the data store is non-empty at the top of the
iteration, and appends none when the store is empty; so after n iterations
the score list has one entry per iteration whose starting store was
non-empty. -/
theorem C4_scores_per_iteration (outcomes : List (Option RawPayload)) (s : AgentState) :
    (loop_iter outcomes s).data_quality_scores.length =
      s.data_quality_scores.length + (if s.data_store.isEmpty then 0 else 1) :=
  loop_iter_scores_len outcomes s

/-- Claim C10: inside the collection loop the speed-up branch of
`adjust_strategy` is unreachable (when the entering success rate is below
0.8 the multiplier is either doubled or untouched, never multiplied by 0.8);
each loop iteration never lowers a non-negative delay multiplier; whole runs
of `collect_data` never lower it; and along any run from the initial state
the initial value 1 is a lower bound. -/
theorem C10_mult_monotone :
    (∀ s : AgentState, get_success_rate s < 0.8 →
      (adjust_strategy s).delay_multiplier =
        if get_success_rate s < 0.5 then s.delay_multiplier * 2
        else s.delay_multiplier) ∧
      (∀ (outcomes : List (Option RawPayload)) (s : AgentState),
        0 ≤ s.delay_multiplier →
          s.delay_multiplier ≤ (loop_iter outcomes s).delay_multiplier) ∧
      (∀ (oracle : ℕ → List (Option RawPayload)) (max_requests i : ℕ)
        (s : AgentState), 0 ≤ s.delay_multiplier →
          s.delay_multiplier ≤
            (collect_data oracle max_requests i s).delay_multiplier) ∧
      (∀ os : List (List (Option RawPayload)),
        1 ≤ (os.foldl (fun st o => loop_iter o st) initState).delay_multiplier) := by
  refine ⟨?_, loop_iter_mult_mono, ?_, ?_⟩
  · intro s h08
    rw [adjust_strategy_state]
    by_cases h05 : get_success_rate s < 0.5
    · rw [if_pos h05, if_pos h05]
    · rw [if_neg h05, if_neg (show ¬ get_success_rate s > 0.9 by linarith),
        if_neg h05]
  · intro oracle max_requests i s h0
    exact collect_data_fuel_mult_mono oracle max_requests _ i s h0
  · intro os
    simpa [initState] using
      foldl_loop_iter_mult_mono os initState (by norm_num [initState])

/-- Witness for C10 at success rate 0 and on a concrete two-iteration run. -/
theorem C10_witness :
    (adjust_strategy lowRateState).delay_multiplier =
        (if get_success_rate lowRateState < 0.5 then
          lowRateState.delay_multiplier * 2
        else lowRateState.delay_multiplier) ∧
      initState.delay_multiplier ≤
        (collect_data oracleFail 2 0 initState).delay_multiplier :=
  ⟨C10_mult_monotone.1 lowRateState (by norm_num [get_success_rate, lowRateState]),
   C10_mult_monotone.2.2.1 oracleFail 2 0 initState (by norm_num [initState])⟩

end WeatherAgent
